import Mathlib

/-!
Verification development for the task-automation pipeline of this repository
(matcher, dynamic-value extractor, step executor, template store).

The Python sources are shallowly embedded as executable Lean definitions.
Numeric results produced by the external scikit-learn collaborator
(`TfidfVectorizer.transform` composed with `cosine_similarity`) are treated
as a black-box oracle parameter, mirroring how the specification treats
heavy third-party collaborators.  Machine floats are modelled as rationals.
Python `str` values are modelled as `String` / `List Char` (ASCII-faithful:
`\w` is modelled as alphanumeric-or-underscore, `\s` as the ASCII
whitespace class of CPython's `re`).
-/

namespace POC

/-- Python `\s` (ASCII): space, tab, newline, carriage return, form feed,
vertical tab. -/
def pySpace (c : Char) : Bool :=
  c = ' ' || c = '\t' || c = '\n' || c = '\r' || c = '\x0c' || c = '\x0b'

/-- Python `\w` (ASCII): alphanumeric or underscore. -/
def pyWord (c : Char) : Bool :=
  c.isAlphanum || c = '_'

/-- Python `str.strip()`: drop leading and trailing whitespace. -/
def pyStripL (cs : List Char) : List Char :=
  ((cs.dropWhile pySpace).reverse.dropWhile pySpace).reverse

/-- Python `str.strip()` on `String`. -/
def pyStrip (s : String) : String :=
  ⟨pyStripL s.data⟩

/-- Python `str.lower()` (ASCII case folding, faithful on the inputs the tool sees). -/
def pyLower (s : String) : String :=
  ⟨s.data.map Char.toLower⟩

/-- One pass of `str.replace(pat, rep)`: left-to-right, non-overlapping.
The fuel argument is the length of the subject and only guides the
structural recursion; all patterns used by the program are non-empty. -/
def replaceAux (pat rep : List Char) : Nat → List Char → List Char
  | _, [] => []
  | 0, cs => cs
  | fuel + 1, c :: cs =>
    if pat ≠ [] ∧ pat.isPrefixOf (c :: cs) then
      rep ++ replaceAux pat rep fuel ((c :: cs).drop pat.length)
    else
      c :: replaceAux pat rep fuel cs

/-- Python `str.replace`. -/
def pyReplace (s pat rep : String) : String :=
  ⟨replaceAux pat.data rep.data s.data.length s.data⟩

/-- Whitespace tokenizer implementing Python `str.split()` (no argument):
runs of whitespace separate tokens, empty tokens are dropped. -/
def wsSplitAux : List Char → List Char → List (List Char)
  | [], acc => if acc = [] then [] else [acc.reverse]
  | c :: cs, acc =>
    if pySpace c then
      (if acc = [] then wsSplitAux cs [] else acc.reverse :: wsSplitAux cs [])
    else
      wsSplitAux cs (c :: acc)

/-- Join tokens with single spaces: `' '.join(tokens)`. -/
def joinSpace : List (List Char) → List Char
  | [] => []
  | [t] => t
  | t :: ts => t ++ ' ' :: joinSpace ts

/-- The fixed synonym/abbreviation table of `TFIDFMatcher.expand_synonyms`
(`src/tfidf_matcher.py`), in Python dict insertion order. -/
def synonyms : List (String × String) :=
  [("mail", "email"),
   ("e-mail", "email"),
   ("message", "email"),
   ("letter", "email"),
   ("browse", "open website"),
   ("surf", "open website"),
   ("navigate", "open website"),
   ("visit", "open website"),
   ("go to", "open website"),
   ("launch", "open"),
   ("start", "open"),
   ("run", "open"),
   ("execute", "open"),
   ("write", "type"),
   ("enter", "type"),
   ("input", "type"),
   ("fill", "type"),
   ("press", "click"),
   ("hit", "click"),
   ("tap", "click"),
   ("select", "click")]

/-- The method `TFIDFMatcher.expand_synonyms`: sequentially `str.replace` each table
entry over the text. -/
def expand_synonyms (text : String) : String :=
  synonyms.foldl (fun t p => pyReplace t p.1 p.2) text

/-- The cleanup part of `TFIDFMatcher.preprocess_input`: lowercase, replace
every character outside `[^\w\s]` by a space, collapse whitespace. -/
def normalize_text (text : String) : String :=
  ⟨joinSpace (wsSplitAux
    ((pyLower text).data.map (fun c => if pyWord c || pySpace c then c else ' ')) [])⟩

/-- The method `TFIDFMatcher.preprocess_input`: cleanup, then expand synonyms. -/
def preprocess_input (text : String) : String :=
  if text = "" then ""
  else expand_synonyms (normalize_text text)

/-! ## A small backtracking regular-expression engine

`TaskProcessor.extract_dynamic_values` uses eight fixed `re` patterns.  They
are embedded into a pattern AST evaluated with CPython `re` backtracking
order: leftmost starting position first; greedy quantifiers try the longest
repetition first, lazy ones the shortest; alternation prefers the left
branch; the most recent choice point backtracks first. -/

/-- The character classes occurring in the program's patterns. -/
inductive CClass where
  | space        -- `\s`
  | nonspace     -- `[^\s]`
  | anyNoNl      -- `.` without DOTALL
  | emailLocal   -- `[A-Za-z0-9._%+-]`
  | emailDomain  -- `[A-Za-z0-9.-]`
  | emailTld     -- `[A-Z|a-z]` (the `|` is a literal member of the class)
deriving DecidableEq

def CClass.test : CClass → Char → Bool
  | .space, c => pySpace c
  | .nonspace, c => !(pySpace c)
  | .anyNoNl, c => c ≠ '\n'
  | .emailLocal, c => c.isAlphanum || c = '.' || c = '_' || c = '%' || c = '+' || c = '-'
  | .emailDomain, c => c.isAlphanum || c = '.' || c = '-'
  | .emailTld, c => c.isAlpha || c = '|'

/-- Pattern AST: a pattern is a sequence (`List RE`) of these elements.
At most one capture group occurs per pattern, delimited by markers. -/
inductive RE where
  | lit (ci : Bool) (s : List Char)   -- literal; `ci` models `re.IGNORECASE`
  | plus (p : CClass)                 -- greedy `+`
  | star (p : CClass)                 -- greedy `*`
  | lazyplus (p : CClass)             -- lazy `+?`
  | rep2 (p : CClass)                 -- greedy `{2,}`
  | opt (r : List RE)                 -- greedy `(?:...)?`
  | alt (a b : List RE)               -- alternation, left branch preferred
  | wordB                             -- `\b`
  | dollar                            -- `$`
  | gstart                            -- opening of capture group 1
  | gend                              -- closing of capture group 1

/-- Case-optional literal prefix test. -/
def litPrefix (ci : Bool) : List Char → List Char → Bool
  | [], _ => true
  | _ :: _, [] => false
  | p :: ps, c :: cs =>
    (if ci then p.toLower = c.toLower else p = c) && litPrefix ci ps cs

/-- Length of the maximal run of class characters at the front. -/
def maxRun (p : CClass) : List Char → Nat
  | [] => 0
  | c :: cs => if p.test c then maxRun p cs + 1 else 0

/-- Greedy repetition counts `[m, m-1, ..., lo]` (empty when `m < lo`). -/
def descFrom (m lo : Nat) : List Nat :=
  (List.range (m + 1 - lo)).map (fun t => m - t)

/-- Lazy repetition counts `[lo, ..., m]` (empty when `m < lo`). -/
def ascFrom (m lo : Nat) : List Nat :=
  (List.range (m + 1 - lo)).map (fun t => lo + t)

/-- Last character among the first `k` consumed, else the previous one:
used to maintain the look-behind character for `\b`. -/
def prevAfter (cs : List Char) (k : Nat) (prev : Option Char) : Option Char :=
  match (cs.take k).getLast? with
  | some c => some c
  | none => prev

/-- Whether an optional character is a word character (`\b` treats the
string boundaries as non-word). -/
def wordOpt : Option Char → Bool
  | none => false
  | some c => pyWord c

/-- Backtracking matcher for a pattern sequence at a fixed position.
Returns the group-marker suffixes and the rest of the input after the
match.  The fuel bounds the recursion depth, which for these patterns
never exceeds the pattern-tree size, so `reFuel` below is never
exhausted. -/
def reMatch : Nat → List RE → Option Char → List Char → Option (List Char) →
    Option (List Char) → Option (Option (List Char) × Option (List Char) × List Char)
  | 0, _, _, _, _, _ => none
  | _ + 1, [], _, cs, gs, ge => some (gs, ge, cs)
  | fuel + 1, re :: r, prev, cs, gs, ge =>
    match re with
    | .lit ci s =>
      if litPrefix ci s cs then
        reMatch fuel r (prevAfter cs s.length prev) (cs.drop s.length) gs ge
      else none
    | .plus p =>
      (descFrom (maxRun p cs) 1).findSome? fun k =>
        reMatch fuel r (prevAfter cs k prev) (cs.drop k) gs ge
    | .star p =>
      (descFrom (maxRun p cs) 0).findSome? fun k =>
        reMatch fuel r (prevAfter cs k prev) (cs.drop k) gs ge
    | .rep2 p =>
      (descFrom (maxRun p cs) 2).findSome? fun k =>
        reMatch fuel r (prevAfter cs k prev) (cs.drop k) gs ge
    | .lazyplus p =>
      (ascFrom (maxRun p cs) 1).findSome? fun k =>
        reMatch fuel r (prevAfter cs k prev) (cs.drop k) gs ge
    | .opt sub =>
      match reMatch fuel (sub ++ r) prev cs gs ge with
      | some res => some res
      | none => reMatch fuel r prev cs gs ge
    | .alt a b =>
      match reMatch fuel (a ++ r) prev cs gs ge with
      | some res => some res
      | none => reMatch fuel (b ++ r) prev cs gs ge
    | .wordB =>
      if wordOpt prev ≠ wordOpt cs.head? then reMatch fuel r prev cs gs ge
      else none
    | .dollar =>
      if cs = [] ∨ cs = ['\n'] then reMatch fuel r prev cs gs ge
      else none
    | .gstart => reMatch fuel r prev cs (some cs) ge
    | .gend => reMatch fuel r prev cs gs (some cs)

/-- Recursion-depth budget; the embedded patterns expand to well under 100
sequential elements along any backtracking path. -/
def reFuel : Nat := 100

/-- Scan loop of `re.search`: try each start position from the left. -/
def reSearchAux (pat : List RE) : Option Char → List Char →
    Option (List Char × Option (List Char))
  | prev, cs =>
    match reMatch reFuel pat prev cs none none with
    | some (gs, ge, rest) =>
      some (cs.take (cs.length - rest.length),
        match gs, ge with
        | some g, some e => some (g.take (g.length - e.length))
        | _, _ => none)
    | none =>
      match cs with
      | [] => none
      | c :: cs' => reSearchAux pat (some c) cs'

/-- Top-level `re.search(pattern, s)`: the whole match and capture group 1. -/
def reSearch (pat : List RE) (s : String) : Option (String × Option String) :=
  (reSearchAux pat none s.data).map fun r => (⟨r.1⟩, r.2.map fun g => ⟨g⟩)

/-! ### The eight patterns of `TaskProcessor.extract_dynamic_values` -/

/-- The email pattern `\b[A-Za-z0-9._%+-]+@[A-Za-z0-9.-]+\.[A-Z|a-z]{2,}\b` (case-sensitive). -/
def emailRe : List RE :=
  [.wordB, .plus .emailLocal, .lit false ['@'], .plus .emailDomain,
   .lit false ['.'], .rep2 .emailTld, .wordB]

/-- The subject pattern `kw + \s+(.+?)(?:\s+to\s+|\s*$)` with IGNORECASE, for
`kw ∈ {regarding, about, subject}`. -/
def subjRe (kw : String) : List RE :=
  [.lit true kw.data, .plus .space, .gstart, .lazyplus .anyNoNl, .gend,
   .alt [.plus .space, .lit true ['t', 'o'], .plus .space] [.star .space, .dollar]]

/-- The pattern `search\s+(?:for\s+)?(.+)` with IGNORECASE. -/
def searchRe1 : List RE :=
  [.lit true "search".data, .plus .space, .opt [.lit true "for".data, .plus .space],
   .gstart, .plus .anyNoNl, .gend]

/-- The pattern `find\s+(?:information\s+about\s+)?(.+)` with IGNORECASE. -/
def searchRe2 : List RE :=
  [.lit true "find".data, .plus .space,
   .opt [.lit true "information".data, .plus .space, .lit true "about".data, .plus .space],
   .gstart, .plus .anyNoNl, .gend]

/-- The pattern `look\s+(?:up\s+)?(.+)` with IGNORECASE. -/
def searchRe3 : List RE :=
  [.lit true "look".data, .plus .space, .opt [.lit true "up".data, .plus .space],
   .gstart, .plus .anyNoNl, .gend]

/-- The pattern `google\s+(.+)` with IGNORECASE. -/
def searchRe4 : List RE :=
  [.lit true "google".data, .plus .space, .gstart, .plus .anyNoNl, .gend]

/-- The URL pattern `https?://[^\s]+` (case-sensitive, as in the source). -/
def urlRe : List RE :=
  [.lit false "http".data, .opt [.lit false ['s']], .lit false "://".data,
   .plus .nonspace]

/-- The capturing alternation `([^\s]+\.com|[^\s]+\.org|[^\s]+\.net)`. -/
def domainGroup : List RE :=
  [.gstart,
   .alt [.plus .nonspace, .lit true ".com".data]
     [.alt [.plus .nonspace, .lit true ".org".data]
       [.plus .nonspace, .lit true ".net".data]],
   .gend]

/-- The pattern `(?:go\s+to\s+|visit\s+|open\s+)([^\s]+\.com|[^\s]+\.org|[^\s]+\.net)`
with IGNORECASE. -/
def navRe1 : List RE :=
  .alt [.lit true "go".data, .plus .space, .lit true "to".data, .plus .space]
    [.alt [.lit true "visit".data, .plus .space] [.lit true "open".data, .plus .space]]
  :: domainGroup

/-- The pattern `([^\s]+\.com|[^\s]+\.org|[^\s]+\.net)` with IGNORECASE. -/
def navRe2 : List RE := domainGroup

/-- First pattern of a list whose `re.search` succeeds, yielding group 1. -/
def firstGroup : List (List RE) → String → Option String
  | [], _ => none
  | p :: ps, s =>
    match reSearch p s with
    | some (_, some g) => some g
    | _ => firstGroup ps s

/-- The subject loop of the `email_compose` branch. -/
def subjectSearch (s : String) : Option String :=
  firstGroup [subjRe "regarding", subjRe "about", subjRe "subject"] s

/-- The search-pattern loop of the `web_search` branch. -/
def searchQuery (s : String) : Option String :=
  firstGroup [searchRe1, searchRe2, searchRe3, searchRe4] s

/-- The website-pattern loop of the `web_navigate` branch. -/
def websiteSearch (s : String) : Option String :=
  firstGroup [navRe1, navRe2] s

/-- Python `str.startswith` via the character list. -/
def pyStartsWith (s pre : String) : Bool :=
  pre.data.isPrefixOf s.data

/-- The method `TaskProcessor.extract_dynamic_values` (task-id dispatch on the matched
task's `task_id`; the result models the Python dict as an insertion-ordered
association list). -/
def extract_dynamic_values (user_input : String) (task_id : String) :
    List (String × String) :=
  if task_id = "email_compose" then
    (match reSearch emailRe user_input with
     | some (w, _) => [("recipient_email", w)]
     | none => []) ++
    [("email_subject",
      match subjectSearch user_input with
      | some g => pyStrip g
      | none => "Inquiry")]
  else if task_id = "web_search" then
    [("search_query",
      match searchQuery user_input with
      | some g => pyStrip g
      | none => user_input)]
  else if task_id = "web_navigate" then
    match reSearch urlRe user_input with
    | some (w, _) => [("target_url", w)]
    | none =>
      match websiteSearch user_input with
      | some g =>
        [("target_url", if pyStartsWith g "http" then g else "https://" ++ g)]
      | none => []
  else []

/-! ## Data model and template store (`src/ui_tree_manager.py`) -/

/-- A row of the `task_templates` sheet. -/
structure TaskTemplate where
  task_id : String
  category_id : String
  task_name : String
  keywords : String
  description : String
deriving DecidableEq, Inhabited, Repr

/-- A row of the `action_steps` sheet. -/
structure ActionStep where
  step_id : String
  task_id : String
  step_order : Nat
  action_type : String
  target_element : String
  action_value : String
  description : String
deriving DecidableEq, Inhabited, Repr

/-- The sheets of the UI-mappings workbook that the embedded methods read;
each sheet can be absent from the loaded dict.  (The `categories` and
`element_selectors` sheets are not consulted by the embedded methods.) -/
structure UIMappings where
  task_templates : Option (List TaskTemplate)
  action_steps : Option (List ActionStep)
deriving DecidableEq, Inhabited

/-- The mutable state of a `UITreeManager`: `self.ui_mappings` (None until
loaded) and whether `self.tfidf_matrix` is initialized. -/
structure ManagerState where
  ui_mappings : Option UIMappings
  tfidf_ready : Bool
deriving DecidableEq, Inhabited

/-- The matched-task dict returned by `find_best_matching_task`: the
template row plus the added `similarity_score`. -/
structure MatchedTask where
  template : TaskTemplate
  similarity_score : ℚ
deriving DecidableEq

/-- The default `task_templates` sheet of `create_default_mappings`. -/
def defaultTaskTemplates : List TaskTemplate :=
  [⟨"email_compose", "email", "Compose Email",
    "email send compose mail message write", "Compose and send an email"⟩,
   ⟨"web_search", "search", "Search Web",
    "search google find look query", "Search for information on the web"⟩,
   ⟨"web_navigate", "web", "Navigate Website",
    "navigate website browse open visit go", "Navigate to a specific website"⟩,
   ⟨"file_create", "file", "Create File",
    "create file new document write", "Create a new file or document"⟩,
   ⟨"app_open", "app", "Open Application",
    "open launch start application program", "Open an application or program"⟩]

/-- The default `action_steps` sheet of `create_default_mappings`. -/
def defaultActionSteps : List ActionStep :=
  [⟨"email_1", "email_compose", 1, "navigate", "url", "https://gmail.com", "Navigate to Gmail"⟩,
   ⟨"email_2", "email_compose", 2, "click", "compose_button", "", "Click compose button"⟩,
   ⟨"email_3", "email_compose", 3, "type", "recipient_field", "", "Enter recipient email"⟩,
   ⟨"search_1", "web_search", 1, "navigate", "url", "https://google.com", "Navigate to Google"⟩,
   ⟨"search_2", "web_search", 2, "type", "search_box", "", "Enter search query"⟩,
   ⟨"nav_1", "web_navigate", 1, "navigate", "url", "", "Navigate to target website"⟩,
   ⟨"nav_2", "web_navigate", 2, "wait", "page_load", "", "Wait for page to load"⟩]

def defaultUIMappings : UIMappings :=
  ⟨some defaultTaskTemplates, some defaultActionSteps⟩

/-- The manager state after a successful `load_ui_mappings` of the default
catalog (mappings loaded, TF-IDF matrix fitted on the five documents). -/
def defaultManagerState : ManagerState :=
  ⟨some defaultUIMappings, true⟩

/-- The constant `Config.TFIDF_MIN_SIMILARITY` (src/utils/config.py): `0.1`, as the
exact rational one tenth. -/
def TFIDF_MIN_SIMILARITY : ℚ := mkRat 1 10

/-- Maximum of a list of rationals (`similarities.max()`); only consulted on
non-empty lists. -/
def listMax : List ℚ → ℚ
  | [] => 0
  | [x] => x
  | x :: y :: xs => max x (listMax (y :: xs))

/-- Index of the first occurrence of the maximum (`np.argmax`). -/
def argmaxFirst : List ℚ → Nat
  | [] => 0
  | [_] => 0
  | x :: y :: xs => if listMax (y :: xs) ≤ x then 0 else argmaxFirst (y :: xs) + 1

/-- The method `UITreeManager.find_best_matching_task`, lines 164-202, with the
externally computed similarity row (`cosine_similarity` of the transformed
input against the fitted matrix) supplied by the black-box oracle `sims`;
an oracle exception is caught by the method's `except` and yields `None`,
as are the `np.argmax` `ValueError` on an empty row and an out-of-range
`iloc`. -/
def find_best_matching_task (st : ManagerState)
    (sims : String → Except String (List ℚ)) (user_input : String) :
    Option MatchedTask :=
  if st.tfidf_ready = false then none
  else
    match st.ui_mappings with
    | none => none
    | some m =>
      match m.task_templates with
      | none => none
      | some templates =>
        match sims user_input with
        | .error _ => none
        | .ok similarities =>
          if similarities = [] then none
          else
            let best_idx := argmaxFirst similarities
            let best := similarities.getD best_idx 0
            if best < TFIDF_MIN_SIMILARITY then none
            else
              match templates.get? best_idx with
              | none => none
              | some t => some ⟨t, best⟩

/-- The method `UITreeManager.get_task_steps`, lines 204-222.  A `None` mappings dict
makes the `in` test raise `TypeError`, which the `except` turns into `[]`;
a missing sheet returns `[]` directly.  `sort_values('step_order')` is
modelled by a deterministic stable sort (NumPy's default quicksort is
unstable, so ties carry no guaranteed order either way). -/
def get_task_steps (mappings : Option UIMappings) (task_id : String) :
    List ActionStep :=
  match mappings with
  | none => []
  | some m =>
    match m.action_steps with
    | none => []
    | some steps =>
      List.insertionSort (fun a b => a.step_order ≤ b.step_order)
        (steps.filter (fun s => s.task_id = task_id))

/-! ## Task processor (`src/task_processor.py`) -/

/-- The execution-plan dict built by `process_user_input`. -/
structure ExecutionPlan where
  task_info : MatchedTask
  steps : List ActionStep
  dynamic_values : List (String × String)
  status : String
deriving DecidableEq

/-- The method `TaskProcessor.process_user_input`, lines 15-50.  The two collaborator
methods of `self.ui_tree_manager` are passed as oracles that may raise; a
raise is caught by the method's `except` and yields `None`. -/
def process_user_input (matcher : String → Except String (Option MatchedTask))
    (getSteps : String → Except String (List ActionStep))
    (user_input : String) : Option ExecutionPlan :=
  match matcher user_input with
  | .error _ => none
  | .ok none => none
  | .ok (some matching_task) =>
    match getSteps matching_task.template.task_id with
    | .error _ => none
    | .ok [] => none
    | .ok steps =>
      some { task_info := matching_task, steps := steps,
             dynamic_values :=
               extract_dynamic_values user_input matching_task.template.task_id,
             status := "ready" }

/-! ## TF-IDF matcher (`src/tfidf_matcher.py`) -/

/-- Ascending argsort (`np.argsort`); modelled by a deterministic insertion sort
(NumPy's default quicksort gives no guaranteed order among ties either). -/
def argsortAsc (l : List ℚ) : List Nat :=
  List.insertionSort (fun i j => l.getD i 0 ≤ l.getD j 0) (List.range l.length)

/-- Ranking part of `find_best_match` (lines 71-86): top-k indices of the
descending argsort, filtered by the threshold, mapped to action ids. -/
def find_best_match_ranked (similarities : List ℚ) (action_ids : List String)
    (top_k : Nat) (threshold : ℚ) : List String :=
  let top_indices := (argsortAsc similarities).reverse.take top_k
  let hits := top_indices.filter (fun i => threshold ≤ similarities.getD i 0)
  hits.map (fun i => action_ids.getD i "")

/-- Shape and stored-entry count of the fitted `action_vectors` scipy
sparse matrix (`rows` documents by `cols` features, `nnz` stored
nonzeros); these three observables determine its Python truth value. -/
structure SparseMatrix where
  rows : Nat
  cols : Nat
  nnz : Nat
deriving DecidableEq

/-- Python truth value of a scipy sparse matrix: defined only for shape
`(1, 1)` (then true iff a nonzero is stored); every other shape raises
`ValueError` ("The truth value of an array with more than one element is
ambiguous"). -/
def sparseBool (m : SparseMatrix) : Except String Bool :=
  if m.rows = 1 ∧ m.cols = 1 then .ok (m.nnz ≠ 0)
  else .error "ValueError: ambiguous truth value"

/-- The method `TFIDFMatcher.find_best_match`, lines 53-90.  The fitted
corpus is represented by `action_vectors` (`None` when `build_action_corpus`
found no texts or failed) together with the `action_ids` list, and `sims`
is the black-box transform-plus-cosine-similarity oracle, called on the
preprocessed input.  The guard `not user_input or not self.action_vectors`
short-circuits on an empty input; otherwise it takes the Python truth value
of the sparse matrix, whose `ValueError` on any non-`(1, 1)` shape is
caught by the method's `except` and yields `[]` — as is an oracle
exception. -/
def find_best_match (sims : String → Except String (List ℚ))
    (action_vectors : Option SparseMatrix) (action_ids : List String)
    (user_input : String) (top_k : Nat) (threshold : ℚ) : List String :=
  if user_input = "" then []
  else
    match action_vectors with
    | none => []
    | some m =>
      match sparseBool m with
      | .error _ => []
      | .ok b =>
        if !b then []
        else
          match sims (preprocess_input user_input) with
          | .error _ => []
          | .ok similarities =>
            find_best_match_ranked similarities action_ids top_k threshold

/-- Modelled from the spec's words (§4.2): matching with the synonym table
applied to the input text before vectorization — the reading under which
`find_best_matching_task` would hand `expand_synonyms(input)` to the
vectorizer.  Used only to compare the claim's reading against the source. -/
def match_with_synonyms_applied (st : ManagerState)
    (sims : String → Except String (List ℚ)) (user_input : String) :
    Option MatchedTask :=
  find_best_matching_task st sims (expand_synonyms user_input)

/-! ## Automation engine (`src/automation_engine.py`) -/

/-- A step dict as consumed by `AutomationEngine.execute_step`
(the `ui_tree.py` processed-step shape: action/selector/parameters). -/
structure EngineStep where
  action : String
  selector : String
  parameters : List (String × String)
  description : String
deriving DecidableEq, Inhabited

/-- The action primitives `execute_step` dispatches to (they wrap the
Selenium/PyAutoGUI collaborator and may raise). -/
structure EngineOracle where
  web_navigate : String → List (String × String) → Except String Bool
  click_element : String → List (String × String) → Except String Bool
  type_text : String → List (String × String) → Except String Bool
  fill_form : String → List (String × String) → Except String Bool
  launch_application : String → List (String × String) → Except String Bool
  open_file : String → List (String × String) → Except String Bool
  wait_for_element : String → List (String × String) → Except String Bool

/-- The dispatch body of `AutomationEngine.execute_step`, lines 54-77. -/
def execute_step_dispatch (o : EngineOracle) (step : EngineStep) :
    Except String Bool :=
  let action_type := pyLower step.action
  if action_type = "web_navigate" then o.web_navigate step.selector step.parameters
  else if action_type = "click" then o.click_element step.selector step.parameters
  else if action_type = "type" then o.type_text step.selector step.parameters
  else if action_type = "form_fill" then o.fill_form step.selector step.parameters
  else if action_type = "app_launch" then o.launch_application step.selector step.parameters
  else if action_type = "file_open" then o.open_file step.selector step.parameters
  else if action_type = "wait" then o.wait_for_element step.selector step.parameters
  else .ok false

/-- The method `AutomationEngine.execute_step`, lines 52-81: the `try/except` turns
any raise from the dispatched primitive into `False`. -/
def execute_step (o : EngineOracle) (step : EngineStep) : Bool :=
  match execute_step_dispatch o step with
  | .ok b => b
  | .error _ => false

/-! ## Step executor run loop

`TaskAutomationApp.start_automation_thread` (src/app.py line 72) invokes
`self.automation_engine.execute_task(execution_plan)`, but no `execute_task`
method exists anywhere in the sources — only its caller.  The loop is
therefore modelled from the spec. -/

/-- Substitution of `\x7bkey\x7d` placeholders by the extracted dynamic
values (spec §3 invariant and §4.4 step 1); keys absent from the map are
left as literal text. -/
def resolve_action_value (value : String) (dyn : List (String × String)) : String :=
  dyn.foldl (fun v p => pyReplace v ("\x7b" ++ p.1 ++ "\x7d") p.2) value

/-- Run result of the step executor (spec §4.4): `Failed` carries the
1-based index of the failing step and the collaborator's error reason. -/
inductive RunResult where
  | Completed : RunResult
  | Failed (step : Nat) (reason : String) : RunResult
deriving DecidableEq

/-- Modelled from the spec: the walk of `AutomationEngine.execute_task`
(absent from the sources; spec §4.4 steps 1-5).  `act i s v` is the Action
Executor collaborator's outcome (success flag, error reason) for step `i`
with resolved value `v`.  The returned list records the 1-based indices of
the steps actually dispatched, so that non-invocation is observable. -/
def execute_task_go (act : Nat → ActionStep → String → Bool × String)
    (dyn : List (String × String)) : Nat → List ActionStep → RunResult × List Nat
  | _, [] => (.Completed, [])
  | i, s :: rest =>
    let r := act i s (resolve_action_value s.action_value dyn)
    if r.1 then
      let next := execute_task_go act dyn (i + 1) rest
      (next.1, i :: next.2)
    else
      (.Failed i r.2, [i])

/-- Modelled from the spec: `AutomationEngine.execute_task` over a plan
(spec §4.4): execute the plan's steps in order from step 1, aborting on the
first failure. -/
def execute_task (act : Nat → ActionStep → String → Bool × String)
    (plan : ExecutionPlan) : RunResult × List Nat :=
  execute_task_go act plan.dynamic_values 1 plan.steps

/-- The collaborator call performed for the 0-based position `j` of a
plan's step list. -/
def stepCall (act : Nat → ActionStep → String → Bool × String)
    (plan : ExecutionPlan) (j : Nat) : Bool × String :=
  act (j + 1) (plan.steps.getD j default)
    (resolve_action_value (plan.steps.getD j default).action_value plan.dynamic_values)

/-! ## Template store of the second lineage (`src/ui_tree.py`) -/

/-- A row of the `Categories` sheet. -/
structure UTCategory where
  category_id : String
  category_name : String
  description : String
deriving DecidableEq

/-- A row of the `Actions` sheet. -/
structure UTAction where
  action_id : String
  category_id : String
  action_name : String
  keywords : String
  difficulty : Nat
deriving DecidableEq

/-- A row of the `Steps` sheet.  The `parameters` cell is a JSON text; it
is carried verbatim (JSON decoding is done by the external `json`
collaborator and plays no role in the store's behavior). -/
structure UTStepRow where
  step_id : Nat
  action_id : String
  step_order : Nat
  step_description : String
  action_type : String
  selector : String
  parameters : String
deriving DecidableEq

/-- The three sheets of `data/ui_tree.xlsx`. -/
structure UTExcelData where
  categories : List UTCategory
  actions : List UTAction
  steps : List UTStepRow
deriving DecidableEq

/-- The backing Excel file: absent or holding the three sheets. -/
abbrev UTFile := Option UTExcelData

/-- A processed step dict of `process_mappings`. -/
structure UTStep where
  step_id : Nat
  order : Nat
  description : String
  action : String
  selector : String
  parameters : String
deriving DecidableEq

/-- A processed action mapping of `process_mappings`.  `difficulty` is
optional because `add_action_mapping` stores a dict without that key. -/
structure UTActionMapping where
  action_name : String
  category : String
  keywords : List String
  difficulty : Option Nat
  steps : List UTStep
deriving DecidableEq

/-- Python comma split `str.split` at commas (empty fields preserved). -/
def splitCommaAux : List Char → List Char → List (List Char)
  | [], acc => [acc.reverse]
  | c :: cs, acc =>
    if c = ',' then acc.reverse :: splitCommaAux cs []
    else splitCommaAux cs (c :: acc)

def pySplitComma (s : String) : List String :=
  (splitCommaAux s.data []).map fun t => ⟨t⟩

/-- The method `UITreeManager.process_mappings` (ui_tree.py lines 148-184): one
mapping per `Actions` row, in row order, with that action's steps filtered
and sorted by `step_order` (stable deterministic sort modelling
`sort_values`). -/
def process_mappings (d : UTExcelData) : List (String × UTActionMapping) :=
  d.actions.map fun a =>
    (a.action_id,
     { action_name := a.action_name,
       category := a.category_id,
       keywords := (pySplitComma a.keywords).map pyStrip,
       difficulty := some a.difficulty,
       steps :=
         (List.insertionSort (fun x y => x.step_order ≤ y.step_order)
             (d.steps.filter (fun s => s.action_id = a.action_id))).map fun s =>
           { step_id := s.step_id, order := s.step_order,
             description := s.step_description, action := s.action_type,
             selector := s.selector, parameters := s.parameters } })

/-- The default sheets written by `create_default_mappings`
(ui_tree.py lines 42-146). -/
def defaultUTExcelData : UTExcelData where
  categories :=
    [⟨"email", "Email Operations", "Email composition, sending, and management"⟩,
     ⟨"web", "Web Browsing", "Web navigation and interaction"⟩,
     ⟨"file", "File Operations", "File creation, editing, and management"⟩,
     ⟨"app", "Application Control", "Application launching and control"⟩]
  actions :=
    [⟨"compose_email", "email", "Compose Email", "email, compose, write, create, draft", 2⟩,
     ⟨"send_email", "email", "Send Email", "send, email, submit, deliver", 3⟩,
     ⟨"open_website", "web", "Open Website", "open, website, browse, go to, navigate", 1⟩,
     ⟨"click_element", "web", "Click Element", "click, press, select, button", 1⟩,
     ⟨"type_text", "web", "Type Text", "type, enter, input, write", 1⟩,
     ⟨"open_file", "file", "Open File", "open, file, document, folder", 1⟩]
  steps :=
    [⟨1, "compose_email", 1, "Open Gmail website", "web_navigate", "https://gmail.com", "\x7b\x7d"⟩,
     ⟨2, "compose_email", 2, "Click on Compose button", "click",
      "div[role=\"button\"][aria-label*=\"Compose\"]", "\x7b\x7d"⟩,
     ⟨3, "compose_email", 3, "Fill email details", "form_fill", "form",
      "\x7b\"recipient\": \"email_param\", \"subject\": \"subject_param\", \"body\": \"body_param\"\x7d"⟩,
     ⟨4, "send_email", 1, "Click Send button", "click",
      "div[role=\"button\"][aria-label*=\"Send\"]", "\x7b\x7d"⟩,
     ⟨5, "open_website", 1, "Open browser and navigate to URL", "web_navigate",
      "url_parameter", "\x7b\"url\": \"url_param\"\x7d"⟩,
     ⟨6, "click_element", 1, "Locate and click on specified element", "click",
      "element_selector", "\x7b\"selector\": \"selector_param\"\x7d"⟩,
     ⟨7, "type_text", 1, "Enter text in input field", "type", "input_field",
      "\x7b\"text\": \"text_param\"\x7d"⟩,
     ⟨8, "open_file", 1, "Open file explorer", "app_launch", "explorer.exe", "\x7b\x7d"⟩,
     ⟨9, "open_file", 2, "Navigate to file location", "navigate", "file_path",
      "\x7b\"path\": \"path_param\"\x7d"⟩,
     ⟨10, "open_file", 3, "Select and open file", "file_open", "file_name",
      "\x7b\"filename\": \"filename_param\"\x7d"⟩]

/-- The `action_ids` list built by `TFIDFMatcher.build_action_corpus` over
the default catalog: one id per action, in `Actions`-sheet row order (the
iteration order of `get_all_actions`). -/
def defaultActionIds : List String :=
  defaultUTExcelData.actions.map (fun a => a.action_id)

/-- The method `UITreeManager.create_default_mappings` (ui_tree.py): build the default
DataFrames, write them to the Excel file, process them. -/
def create_default_mappings : List (String × UTActionMapping) × UTFile :=
  (process_mappings defaultUTExcelData, some defaultUTExcelData)

/-- The method `UITreeManager.load_ui_mappings` (ui_tree.py lines 20-40): create the
default file when absent, otherwise read the sheets and process them.
Returns the in-memory catalog and the (possibly just created) file. -/
def load_ui_mappings (f : UTFile) : List (String × UTActionMapping) × UTFile :=
  match f with
  | none => create_default_mappings
  | some d => (process_mappings d, f)

/-- The method `UITreeManager.save_mappings_to_excel` (ui_tree.py lines 234-242): the
body performs no write — it only logs — so the backing file is returned
unchanged. -/
def save_mappings_to_excel (_mappings : List (String × UTActionMapping))
    (f : UTFile) : UTFile :=
  f

/-- Python dict assignment on the association-list model: replace in place
when the key exists, else append. -/
def assocSet (k : String) (v : UTActionMapping)
    (l : List (String × UTActionMapping)) : List (String × UTActionMapping) :=
  if (l.lookup k).isSome then
    l.map fun p => if p.1 = k then (k, v) else p
  else
    l ++ [(k, v)]

/-- The method `UITreeManager.add_action_mapping` (ui_tree.py lines 215-232): store
the new mapping in memory (no `difficulty` key) and call
`save_mappings_to_excel`. -/
def add_action_mapping (mappings : List (String × UTActionMapping))
    (f : UTFile) (action_id action_name category : String)
    (keywords : List String) (steps : List UTStep) :
    List (String × UTActionMapping) × UTFile :=
  let m := assocSet action_id
    { action_name := action_name, category := category, keywords := keywords,
      difficulty := none, steps := steps } mappings
  (m, save_mappings_to_excel m f)

/-! ## Supporting lemmas -/

theorem argmax_spec (l : List ℚ) (h : l ≠ []) :
    argmaxFirst l < l.length ∧ l.getD (argmaxFirst l) 0 = listMax l := by
  induction l with
  | nil => exact absurd rfl h
  | cons x xs ih =>
    cases xs with
    | nil => exact ⟨by simp [argmaxFirst], by simp [argmaxFirst, listMax]⟩
    | cons y ys =>
      obtain ⟨ih1, ih2⟩ := ih (by simp)
      by_cases hc : listMax (y :: ys) ≤ x
      · refine ⟨by simp [argmaxFirst, hc], ?_⟩
        simp [argmaxFirst, hc, listMax, max_eq_left hc]
      · refine ⟨?_, ?_⟩
        · simp only [argmaxFirst, if_neg hc]
          simp only [List.length_cons] at ih1 ⊢
          omega
        · simp only [argmaxFirst, if_neg hc, listMax, List.getD_cons_succ]
          rw [ih2, max_eq_right (le_of_lt (lt_of_not_le hc))]

theorem list_get?_getD {α : Type} [Inhabited α] (l : List α) (n : Nat)
    (hn : n < l.length) : l.get? n = some (l.getD n default) := by
  induction l generalizing n with
  | nil => simp at hn
  | cons a as ih =>
    cases n with
    | zero => simp
    | succ m => simpa using ih m (by simpa using hn)

theorem list_getElem?_getD {α : Type} [Inhabited α] (l : List α) (n : Nat)
    (hn : n < l.length) : l[n]? = some (l.getD n default) := by
  induction l generalizing n with
  | nil => simp at hn
  | cons a as ih =>
    cases n with
    | zero => simp
    | succ m => simpa using ih m (by simpa using hn)

theorem list_getElem?_getD_val {α : Type} (l : List α) (n : Nat) (d : α) :
    l[n]?.getD d = l.getD n d := by
  induction l generalizing n with
  | nil => simp
  | cons a as ih =>
    cases n with
    | zero => simp
    | succ m => simpa using ih m

/-! ## Claim theorems -/

set_option maxRecDepth 8000 in
/-- C1: over the default catalog, the matcher `find_best_matching_task` returns `None`
exactly when the maximum of the similarity row is strictly below the floor
`Config.TFIDF_MIN_SIMILARITY = 0.1`; when the maximum reaches the floor it
returns the template at the first index attaining that maximum, tagged with
that score. -/
theorem find_best_matching_task_threshold_policy
    (sims : String → List ℚ) (input : String)
    (h : (sims input).length = 5) :
    (find_best_matching_task defaultManagerState (fun s => Except.ok (sims s)) input = none
        ↔ listMax (sims input) < TFIDF_MIN_SIMILARITY) ∧
    (TFIDF_MIN_SIMILARITY ≤ listMax (sims input) →
      find_best_matching_task defaultManagerState (fun s => Except.ok (sims s)) input
        = some ⟨defaultTaskTemplates.getD (argmaxFirst (sims input)) default,
                listMax (sims input)⟩) := by
  have hne : sims input ≠ [] := by
    intro hx
    rw [hx] at h
    simp at h
  obtain ⟨hlt, hval⟩ := argmax_spec (sims input) hne
  have hget : defaultTaskTemplates.get? (argmaxFirst (sims input))
      = some (defaultTaskTemplates.getD (argmaxFirst (sims input)) default) := by
    refine list_get?_getD _ _ ?_
    have h5 : defaultTaskTemplates.length = 5 := rfl
    rw [h5]
    rw [h] at hlt
    exact hlt
  have hEq : find_best_matching_task defaultManagerState
      (fun s => Except.ok (sims s)) input
      = if listMax (sims input) < TFIDF_MIN_SIMILARITY then none
        else some ⟨defaultTaskTemplates.getD (argmaxFirst (sims input)) default,
                   listMax (sims input)⟩ := by
    unfold find_best_matching_task
    rw [show defaultManagerState.tfidf_ready = true from rfl,
        show defaultManagerState.ui_mappings = some defaultUIMappings from rfl]
    rw [if_neg (by simp)]
    dsimp only []
    rw [show defaultUIMappings.task_templates = some defaultTaskTemplates from rfl]
    dsimp only []
    rw [if_neg hne]
    rw [hval, hget]
  constructor
  · rw [hEq]
    by_cases hb : listMax (sims input) < TFIDF_MIN_SIMILARITY
    · simp [hb]
    · simp [hb]
  · intro hge
    rw [hEq, if_neg (not_lt.mpr hge)]

/-- Witness for C1: a similarity row `[0, 0, 1, 0, 0]` is above the floor
and selects the third template, `web_navigate`, with its score. -/
theorem find_best_matching_task_threshold_policy_witness :
    find_best_matching_task defaultManagerState
      (fun _ => Except.ok ([0, 0, 1, 0, 0] : List ℚ)) "navigate to github"
      = some ⟨⟨"web_navigate", "web", "Navigate Website",
              "navigate website browse open visit go",
              "Navigate to a specific website"⟩, 1⟩ :=
  (find_best_matching_task_threshold_policy (fun _ => [0, 0, 1, 0, 0])
    "navigate to github" (by decide)).2 (by decide)

theorem argsortAsc_pairwise (l : List ℚ) :
    (argsortAsc l).Pairwise (fun i j => l.getD i 0 ≤ l.getD j 0) := by
  have h1 : IsTotal Nat (fun i j => l.getD i 0 ≤ l.getD j 0) :=
    ⟨fun a b => le_total _ _⟩
  have h2 : IsTrans Nat (fun i j => l.getD i 0 ≤ l.getD j 0) :=
    ⟨fun a b c hab hbc => le_trans hab hbc⟩
  exact List.sorted_insertionSort _ _

theorem argsortAsc_mem (l : List ℚ) (i : Nat) (hi : i ∈ argsortAsc l) :
    i < l.length := by
  have hperm := List.perm_insertionSort
    (fun i j => l.getD i 0 ≤ l.getD j 0) (List.range l.length)
  have := hperm.mem_iff.mp hi
  simpa using this

/-- C10: evidence that the described ranking is unreachable.  For every
fitted matrix whose shape is not `(1, 1)` — in particular the default
6-action corpus — `find_best_match` returns `[]` for every input, because
the Python truth value of the matrix raises `ValueError` and the `except`
returns `[]` before `preprocess_input`, the transform, or the argsort
ranking can run; the ranking the method's docstring promises
(`find_best_match_ranked`) would return `["open_website"]` on the same
similarity row. -/
theorem find_best_match_unreachable_ranking :
    (∀ (sims : String → Except String (List ℚ)) (m : SparseMatrix)
        (ids : List String) (input : String) (top_k : Nat) (th : ℚ),
      find_best_match sims (some m) ids input top_k th = []
        ∨ (m.rows = 1 ∧ m.cols = 1)) ∧
    (find_best_match (fun _ => Except.ok ([0, 0, 1, 0, 0, 0] : List ℚ))
        (some ⟨6, 30, 40⟩) defaultActionIds "open website" 3 (mkRat 1 10)
      = []) ∧
    (find_best_match_ranked [0, 0, 1, 0, 0, 0] defaultActionIds 3 (mkRat 1 10)
      = ["open_website"]) := by
  refine ⟨?_, by decide, by decide⟩
  intro sims m ids input top_k th
  by_cases h : m.rows = 1 ∧ m.cols = 1
  · exact Or.inr h
  · left
    by_cases hin : input = ""
    · simp [find_best_match, hin]
    · simp [find_best_match, hin, sparseBool, h]

/-- A similarity oracle that (like the real vectorizer) maps the raw text
`"mail"` and its synonym expansion `"email"` to different rows. -/
def simsDistinguishingQ : String → List ℚ :=
  fun s => if s = "mail" then [1, 0, 0, 0, 0] else [0, 0, 0, 0, 0]

/-- Counterexample for C4: the method `UITreeManager.find_best_matching_task` hands the
raw input text to the vectorizer, so on input `"mail"` its outcome differs
from the claimed behavior of applying the synonym table first. -/
theorem ui_matcher_no_synonym_normalization_cex :
    find_best_matching_task defaultManagerState
        (fun s => Except.ok (simsDistinguishingQ s)) "mail"
      ≠ match_with_synonyms_applied defaultManagerState
        (fun s => Except.ok (simsDistinguishingQ s)) "mail" := by
  decide

/-- C4 (amended): no matcher of the program applies the synonym table to
an input that reaches vectorization.  `UITreeManager.find_best_matching_task`
— the matcher wired into the pipeline — performs no synonym normalization:
its outcome depends on the input only through the raw similarity call.  The
fixed table (mail→email, browse→open website, ...) lives only inside
`TFIDFMatcher.preprocess_input`, which `find_best_match` consults solely in
its ranking path; that path is reachable only for a fitted `(1, 1)` matrix
with a stored nonzero — for the default 6-row corpus the method returns
`[]` before any preprocessing or vectorization. -/
theorem synonym_normalization_amended :
    (∀ s : String, preprocess_input s
        = if s = "" then "" else expand_synonyms (normalize_text s)) ∧
    (∀ (st : ManagerState) (sims : String → Except String (List ℚ)) (s₁ s₂ : String),
      sims s₁ = sims s₂ →
      find_best_matching_task st sims s₁ = find_best_matching_task st sims s₂) ∧
    (∀ (sims : String → Except String (List ℚ)) (ids : List String)
        (input : String) (top_k : Nat) (th : ℚ) (n : Nat),
      input ≠ "" →
      find_best_match sims (some ⟨1, 1, n + 1⟩) ids input top_k th
        = match sims (preprocess_input input) with
          | .error _ => []
          | .ok l => find_best_match_ranked l ids top_k th) ∧
    (∀ (sims : String → Except String (List ℚ)) (ids : List String)
        (input : String) (top_k : Nat) (th : ℚ) (c n : Nat),
      find_best_match sims (some ⟨6, c, n⟩) ids input top_k th = []) ∧
    expand_synonyms "mail" = "email" ∧
    expand_synonyms "browse" = "open website" := by
  refine ⟨fun s => rfl, ?_, ?_, ?_, by decide, by decide⟩
  · intro st sims s₁ s₂ h
    unfold find_best_matching_task
    rw [h]
  · intro sims ids input top_k th n h1
    simp [find_best_match, h1, sparseBool]
  · intro sims ids input top_k th c n
    by_cases hin : input = ""
    · simp [find_best_match, hin]
    · simp [find_best_match, hin, sparseBool]

/-- Witness for the amended C4: the UI-tree matcher's outcome is unchanged
between two raw inputs the oracle does not distinguish, and in the only
reachable ranking configuration the TF-IDF matcher consults the oracle at
the preprocessed text of `"browse"`. -/
theorem synonym_normalization_amended_witness :
    (find_best_matching_task defaultManagerState
        (fun _ => Except.ok ([1, 0, 0, 0, 0] : List ℚ)) "mail"
      = find_best_matching_task defaultManagerState
        (fun _ => Except.ok ([1, 0, 0, 0, 0] : List ℚ)) "email") ∧
    (find_best_match (fun _ => Except.ok ([1] : List ℚ)) (some ⟨1, 1, 1⟩)
        ["open_website"] "browse" 3 (mkRat 1 10)
      = find_best_match_ranked [1] ["open_website"] 3 (mkRat 1 10)) :=
  ⟨synonym_normalization_amended.2.1 defaultManagerState
      (fun _ => Except.ok [1, 0, 0, 0, 0]) "mail" "email" rfl,
   synonym_normalization_amended.2.2.1 (fun _ => Except.ok [1]) ["open_website"]
      "browse" 3 (mkRat 1 10) 0 (by decide)⟩

/-- C3: the processor `process_user_input` returns `None` exactly when the matcher finds
no template or the matched template's step list is empty — the two cases
are indistinguishable in the result — and every plan it does return has a
non-empty step list and status `"ready"`. -/
theorem process_user_input_none_iff
    (matcher : String → Option MatchedTask) (getSteps : String → List ActionStep)
    (input : String) :
    (process_user_input (fun s => Except.ok (matcher s))
        (fun tid => Except.ok (getSteps tid)) input = none
      ↔ matcher input = none
        ∨ ∃ t, matcher input = some t ∧ getSteps t.template.task_id = []) ∧
    (∀ plan, process_user_input (fun s => Except.ok (matcher s))
        (fun tid => Except.ok (getSteps tid)) input = some plan →
      plan.steps ≠ [] ∧ plan.status = "ready") := by
  cases hm : matcher input with
  | none =>
    refine ⟨by simp [process_user_input, hm], ?_⟩
    intro plan hp
    simp [process_user_input, hm] at hp
  | some t =>
    cases hs : getSteps t.template.task_id with
    | nil =>
      refine ⟨?_, ?_⟩
      · simp only [process_user_input, hm, hs]
        exact ⟨fun _ => Or.inr ⟨t, rfl, hs⟩, fun _ => by trivial⟩
      · intro plan hp
        simp [process_user_input, hm, hs] at hp
    | cons s ss =>
      refine ⟨?_, ?_⟩
      · simp only [process_user_input, hm, hs]
        constructor
        · intro hfalse
          exact absurd hfalse (by simp)
        · rintro (hnone | ⟨t', ht', hsteps⟩)
          · exact absurd hnone (by simp)
          · rw [show t' = t from (Option.some.injEq _ _ ▸ ht').symm] at hsteps
            rw [hs] at hsteps
            exact absurd hsteps (by simp)
      · intro plan hp
        simp only [process_user_input, hm, hs] at hp
        injection hp with hplan
        subst hplan
        exact ⟨by simp, rfl⟩

/-- Witness for C3: a matcher that finds nothing makes the processor
return `None`. -/
theorem process_user_input_none_iff_witness :
    process_user_input (fun _ => Except.ok (none : Option MatchedTask))
      (fun _ => Except.ok ([] : List ActionStep)) "open something" = none :=
  (process_user_input_none_iff (fun _ => none) (fun _ => [])
    "open something").1.mpr (Or.inl rfl)

/-- C9: no boundary method propagates a collaborator raise: a raising
matcher or step lookup makes `process_user_input` return `None`; a raising
similarity oracle makes `find_best_matching_task` return `None`; an
uninitialized mappings dict makes `get_task_steps` return `[]` (the `in`
test raises `TypeError`, caught by its handler); a raising action primitive
makes `execute_step` return `False`. -/
theorem boundary_methods_no_unhandled_fault :
    (∀ (matcher : String → Except String (Option MatchedTask))
        (getSteps : String → Except String (List ActionStep)) (input e : String),
      matcher input = .error e →
      process_user_input matcher getSteps input = none) ∧
    (∀ (matcher : String → Except String (Option MatchedTask))
        (getSteps : String → Except String (List ActionStep))
        (input : String) (t : MatchedTask) (e : String),
      matcher input = .ok (some t) →
      getSteps t.template.task_id = .error e →
      process_user_input matcher getSteps input = none) ∧
    (∀ (st : ManagerState) (sims : String → Except String (List ℚ)) (input e : String),
      sims input = .error e → find_best_matching_task st sims input = none) ∧
    (∀ tid : String, get_task_steps none tid = []) ∧
    (∀ (o : EngineOracle) (step : EngineStep) (e : String),
      execute_step_dispatch o step = .error e → execute_step o step = false) := by
  refine ⟨?_, ?_, ?_, fun _ => rfl, ?_⟩
  · intro matcher getSteps input e h
    simp [process_user_input, h]
  · intro matcher getSteps input t e h1 h2
    simp [process_user_input, h1, h2]
  · intro st sims input e h
    obtain ⟨um, tr⟩ := st
    cases tr
    · rfl
    · cases um with
      | none => rfl
      | some m =>
        obtain ⟨tt, as⟩ := m
        cases tt with
        | none => rfl
        | some templates => simp [find_best_matching_task, h]
  · intro o step e h
    simp [execute_step, h]

/-- Witness for C9: each boundary outcome at a concrete raising
collaborator. -/
theorem boundary_methods_no_unhandled_fault_witness :
    (process_user_input (fun _ => Except.error "boom")
      (fun _ => Except.ok []) "send email" = none) ∧
    (find_best_matching_task defaultManagerState
      (fun _ => Except.error "NotFittedError") "send email" = none) ∧
    (get_task_steps none "web_search" = []) ∧
    (execute_step
      ⟨fun _ _ => Except.error "timeout", fun _ _ => Except.error "timeout",
       fun _ _ => Except.error "timeout", fun _ _ => Except.error "timeout",
       fun _ _ => Except.error "timeout", fun _ _ => Except.error "timeout",
       fun _ _ => Except.error "timeout"⟩
      ⟨"click", "div.button", [], "Click compose button"⟩ = false) :=
  ⟨boundary_methods_no_unhandled_fault.1 (fun _ => Except.error "boom")
      (fun _ => Except.ok []) "send email" "boom" rfl,
   boundary_methods_no_unhandled_fault.2.2.1 defaultManagerState
      (fun _ => Except.error "NotFittedError") "send email" "NotFittedError" rfl,
   boundary_methods_no_unhandled_fault.2.2.2.1 "web_search",
   boundary_methods_no_unhandled_fault.2.2.2.2 _
      ⟨"click", "div.button", [], "Click compose button"⟩ "timeout" rfl⟩

theorem range_map_shift (b n : Nat) :
    (List.range (n + 1)).map (fun x => b + x)
      = b :: (List.range n).map (fun x => b + 1 + x) := by
  rw [List.range_succ_eq_map, List.map_cons, List.map_map]
  refine congrArg₂ _ (by omega) ?_
  refine List.map_congr_left ?_
  intro t _
  simp [Function.comp]
  omega

theorem execute_task_go_abort
    (act : Nat → ActionStep → String → Bool × String)
    (dyn : List (String × String)) :
    ∀ (i : Nat) (steps : List ActionStep) (b : Nat),
      i < steps.length →
      (∀ j, j < i → (act (b + j) (steps.getD j default)
        (resolve_action_value (steps.getD j default).action_value dyn)).1 = true) →
      (act (b + i) (steps.getD i default)
        (resolve_action_value (steps.getD i default).action_value dyn)).1 = false →
      execute_task_go act dyn b steps
        = (.Failed (b + i) (act (b + i) (steps.getD i default)
              (resolve_action_value (steps.getD i default).action_value dyn)).2,
           (List.range (i + 1)).map (fun x => b + x)) := by
  intro i
  induction i with
  | zero =>
    intro steps b hlen hpre hfail
    cases steps with
    | nil => simp at hlen
    | cons s rest =>
      simp only [List.getD_cons_zero] at hfail ⊢
      simp only [execute_task_go]
      rw [if_neg (by simp [Nat.add_zero] at hfail ⊢; exact hfail)]
      simp [List.range_succ]
  | succ i ih =>
    intro steps b hlen hpre hfail
    cases steps with
    | nil => simp at hlen
    | cons s rest =>
      have h0 : (act b s (resolve_action_value s.action_value dyn)).1 = true := by
        have := hpre 0 (Nat.succ_pos i)
        simpa using this
      have hih := ih rest (b + 1)
        (by simpa using Nat.lt_of_succ_lt_succ hlen)
        (by
          intro j hj
          have := hpre (j + 1) (Nat.succ_lt_succ hj)
          simpa [Nat.add_assoc, Nat.add_comm 1 j] using this)
        (by
          have := hfail
          simpa [Nat.add_assoc, Nat.add_comm 1 i] using this)
      simp only [execute_task_go, h0, if_pos]
      rw [hih]
      have h2 : (s :: rest).getD (i + 1) default = rest.getD i default := by simp
      rw [h2]
      have h1 : b + (i + 1) = b + 1 + i := by omega
      rw [h1]
      rw [range_map_shift b (i + 1)]

/-- C2: if every Action Executor call before step `i+1` succeeds and the
call for step `i+1` fails, the run's result is `Failed (i+1)` carrying the
collaborator's reason, and the dispatched steps are exactly `1..i+1` — no
later step is ever invoked.  In particular a `[navigate, click, type]` plan
whose second call fails yields `Failed 2` with steps 1 and 2 dispatched and
step 3 never invoked.  (`execute_task` is modelled from the spec: only its
caller exists in the sources.) -/
theorem execute_task_abort_on_failure :
    (∀ (act : Nat → ActionStep → String → Bool × String)
        (plan : ExecutionPlan) (i : Nat),
      i < plan.steps.length →
      (∀ j, j < i → (stepCall act plan j).1 = true) →
      (stepCall act plan i).1 = false →
      execute_task act plan
          = (.Failed (i + 1) (stepCall act plan i).2,
             (List.range (i + 1)).map (fun x => 1 + x))
        ∧ ∀ k, i + 1 < k → k ∉ (execute_task act plan).2) ∧
    (∀ (act : Nat → ActionStep → String → Bool × String) (t : MatchedTask)
        (dyn : List (String × String)) (s1 s2 s3 : ActionStep) (r : String),
      s1.action_type = "navigate" → s2.action_type = "click" →
      s3.action_type = "type" →
      (act 1 s1 (resolve_action_value s1.action_value dyn)).1 = true →
      act 2 s2 (resolve_action_value s2.action_value dyn) = (false, r) →
      execute_task act ⟨t, [s1, s2, s3], dyn, "ready"⟩
        = (.Failed 2 r, [1, 2])) := by
  have hmain : ∀ (act : Nat → ActionStep → String → Bool × String)
      (plan : ExecutionPlan) (i : Nat),
      i < plan.steps.length →
      (∀ j, j < i → (stepCall act plan j).1 = true) →
      (stepCall act plan i).1 = false →
      execute_task act plan
        = (.Failed (i + 1) (stepCall act plan i).2,
           (List.range (i + 1)).map (fun x => 1 + x)) := by
    intro act plan i hlen hpre hfail
    have := execute_task_go_abort act plan.dynamic_values i plan.steps 1 hlen
      (by
        intro j hj
        have := hpre j hj
        simpa [stepCall, Nat.add_comm 1 j] using this)
      (by simpa [stepCall, Nat.add_comm 1 i] using hfail)
    unfold execute_task
    rw [this]
    simp [stepCall, Nat.add_comm 1 i]
  refine ⟨?_, ?_⟩
  · intro act plan i hlen hpre hfail
    refine ⟨hmain act plan i hlen hpre hfail, ?_⟩
    intro k hk hmem
    rw [hmain act plan i hlen hpre hfail] at hmem
    simp only [List.mem_map, List.mem_range] at hmem
    omega
  · intro act t dyn s1 s2 s3 r h1 h2 h3 hok hfail
    have := hmain act ⟨t, [s1, s2, s3], dyn, "ready"⟩ 1 (by simp)
      (by
        intro j hj
        interval_cases j
        simpa [stepCall] using hok)
      (by simp [stepCall, hfail])
    rw [this]
    simp [stepCall, hfail, List.range_succ]

/-- Witness for C2: a three-step `[navigate, click, type]` plan whose
second call fails produces `Failed 2` with only steps 1 and 2 dispatched. -/
theorem execute_task_abort_on_failure_witness :
    execute_task
      (fun i _ _ => if i = 2 then (false, "element not found") else (true, ""))
      ⟨⟨defaultTaskTemplates.getD 0 default, 1⟩,
       [defaultActionSteps.getD 0 default, defaultActionSteps.getD 1 default,
        defaultActionSteps.getD 2 default], [], "ready"⟩
      = (.Failed 2 "element not found", [1, 2]) :=
  execute_task_abort_on_failure.2
    (fun i _ _ => if i = 2 then (false, "element not found") else (true, ""))
    ⟨defaultTaskTemplates.getD 0 default, 1⟩ []
    (defaultActionSteps.getD 0 default) (defaultActionSteps.getD 1 default)
    (defaultActionSteps.getD 2 default) "element not found"
    (by decide) (by decide) (by decide) (by decide) (by decide)

/-- C5: email extraction maps the first email-regex match to
`recipient_email` (absent when there is none), always sets `email_subject`
— to the stripped clause of the first matching subject pattern of
`regarding`/`about`/`subject`, else to `"Inquiry"` — and on
`"email john@x.com regarding the budget"` yields exactly
`recipient_email = "john@x.com"`, `email_subject = "the budget"`. -/
theorem extract_email_fields (input : String) :
    (∀ w g, reSearch emailRe input = some (w, g) →
      (extract_dynamic_values input "email_compose").lookup "recipient_email"
        = some w) ∧
    (reSearch emailRe input = none →
      (extract_dynamic_values input "email_compose").lookup "recipient_email"
        = none) ∧
    ((extract_dynamic_values input "email_compose").lookup "email_subject"
      = some (match subjectSearch input with
              | some g => pyStrip g
              | none => "Inquiry")) ∧
    extract_dynamic_values "email john@x.com regarding the budget" "email_compose"
      = [("recipient_email", "john@x.com"), ("email_subject", "the budget")] := by
  refine ⟨?_, ?_, ?_, by decide⟩
  · intro w g h
    simp [extract_dynamic_values, h, List.lookup]
  · intro h
    simp only [extract_dynamic_values, h, if_pos rfl, List.nil_append]
    simp [List.lookup, show (("recipient_email" : String) == "email_subject") = false
      from by decide]
  · cases h : reSearch emailRe input with
    | none =>
      simp only [extract_dynamic_values, h, if_pos rfl, List.nil_append]
      simp [List.lookup]
    | some p =>
      obtain ⟨w, g⟩ := p
      simp only [extract_dynamic_values, h, if_pos rfl]
      simp [List.lookup, show (("email_subject" : String) == "recipient_email") = false
        from by decide]

/-- Witness for C5 at the claim's own example input. -/
theorem extract_email_fields_witness :
    (extract_dynamic_values "email john@x.com regarding the budget"
      "email_compose").lookup "recipient_email" = some "john@x.com" :=
  (extract_email_fields "email john@x.com regarding the budget").1
    "john@x.com" none (by decide)

/-- Counterexample for C6: the nonempty input `"search  "` (a search
keyword followed by whitespace) yields an empty `search_query` — the
matched clause strips to the empty string — refuting "search_query is
empty only when the input is empty". -/
theorem extract_search_empty_query_cex :
    (extract_dynamic_values "search  " "web_search").lookup "search_query"
        = some "" ∧
    ("search  " : String) ≠ "" := by
  exact ⟨by decide, by decide⟩

/-- C6 (amended): search extraction sets `search_query` to the stripped
trailing clause of the first matching pattern, and to the entire input
verbatim when no pattern matches; because the clause is stripped,
`search_query` can be empty even for nonempty input.  On
`"search for python tutorials"` it yields `"python tutorials"`. -/
theorem extract_search_query_amended (input : String) :
    ((extract_dynamic_values input "web_search").lookup "search_query"
      = some (match searchQuery input with
              | some g => pyStrip g
              | none => input)) ∧
    (searchQuery input = none →
      extract_dynamic_values input "web_search" = [("search_query", input)]) ∧
    extract_dynamic_values "search for python tutorials" "web_search"
      = [("search_query", "python tutorials")] := by
  refine ⟨?_, ?_, by decide⟩
  · cases h : searchQuery input with
    | none => simp [extract_dynamic_values, h, List.lookup]
    | some g => simp [extract_dynamic_values, h, List.lookup]
  · intro h
    simp [extract_dynamic_values, h]

/-- Witness for the amended C6: an input matching no search pattern is used
verbatim. -/
theorem extract_search_query_amended_witness :
    extract_dynamic_values "hello there" "web_search"
      = [("search_query", "hello there")] :=
  (extract_search_query_amended "hello there").2.1 (by decide)

/-- Modelled from the spec's words (§4.3 navigate rule): first literal URL;
else the first bare domain-like token anywhere in the text, prefixed with
`https://` when no scheme is present.  Used only to compare the claim's
reading against the source. -/
def spec_nav_target (input : String) : Option String :=
  match reSearch urlRe input with
  | some (w, _) => some w
  | none =>
    match reSearch navRe2 input with
    | some (_, some g) =>
      some (if pyStartsWith g "http://" || pyStartsWith g "https://" then g
            else "https://" ++ g)
    | _ => none

/-- Counterexample for C7: on `"foo.com visit httpx.com"` the code selects
the verb-prefixed token `httpx.com` (not the first domain-like token
`foo.com`) and leaves it unprefixed because it merely starts with the
literal `"http"`, while the claim's reading demands `https://foo.com`. -/
theorem extract_navigate_first_token_cex :
    (extract_dynamic_values "foo.com visit httpx.com" "web_navigate").lookup
        "target_url" = some "httpx.com" ∧
    spec_nav_target "foo.com visit httpx.com" = some "https://foo.com" ∧
    (some "httpx.com" ≠ some "https://foo.com") := by
  exact ⟨by decide, by decide, by decide⟩

/-- C7 (amended): navigate extraction sets `target_url` to the first
literal http(s) URL; otherwise to group 1 of the first matching website
pattern (the verb-prefixed pattern before the bare-token pattern),
prefixed with `https://` exactly when the token does not start with the
literal `"http"`; when nothing matches the key is absent (no error). -/
theorem extract_navigate_target_amended (input : String) :
    (∀ w g, reSearch urlRe input = some (w, g) →
      (extract_dynamic_values input "web_navigate").lookup "target_url"
        = some w) ∧
    (reSearch urlRe input = none → ∀ g, websiteSearch input = some g →
      (extract_dynamic_values input "web_navigate").lookup "target_url"
        = some (if pyStartsWith g "http" then g else "https://" ++ g)) ∧
    (reSearch urlRe input = none → websiteSearch input = none →
      extract_dynamic_values input "web_navigate" = []) ∧
    extract_dynamic_values "go to github.com" "web_navigate"
      = [("target_url", "https://github.com")] := by
  refine ⟨?_, ?_, ?_, by decide⟩
  · intro w g h
    simp [extract_dynamic_values, h, List.lookup]
  · intro h g hg
    simp [extract_dynamic_values, h, hg, List.lookup]
  · intro h hg
    simp [extract_dynamic_values, h, hg]

/-- Witness for the amended C7: a literal URL wins and is kept verbatim. -/
theorem extract_navigate_target_amended_witness :
    (extract_dynamic_values "open http://ex.org/a" "web_navigate").lookup
      "target_url" = some "http://ex.org/a" :=
  (extract_navigate_target_amended "open http://ex.org/a").1
    "http://ex.org/a" none (by decide)

/-- C8 evidence: the method `save_mappings_to_excel` writes nothing (its body only
logs), so the save-then-load round trip reproduces the catalog only
vacuously — the file is never touched — and an in-memory addition made via
`add_action_mapping` (which calls save to persist) is silently absent
after a reload from the backing file. -/
theorem save_mappings_noop_roundtrip :
    (∀ (m : List (String × UTActionMapping)) (f : UTFile),
      save_mappings_to_excel m f = f) ∧
    (load_ui_mappings (save_mappings_to_excel (load_ui_mappings none).1
        (load_ui_mappings none).2)
      = load_ui_mappings none) ∧
    (((add_action_mapping (load_ui_mappings none).1 (load_ui_mappings none).2
        "custom_action" "Custom Action" "web" ["custom"] []).1.lookup
          "custom_action").isSome = true ∧
     ((load_ui_mappings
          (add_action_mapping (load_ui_mappings none).1 (load_ui_mappings none).2
            "custom_action" "Custom Action" "web" ["custom"] []).2).1.lookup
          "custom_action") = none) := by
  exact ⟨fun m f => rfl, rfl, by decide, by decide⟩

end POC

/-! ## Evaluation checks

Concrete evaluations of the embedded string machinery and regex engine,
each cross-checked against CPython's `re` on the same pattern literals. -/
example : POC.expand_synonyms "mail" = "email" := by decide
example : POC.expand_synonyms "browse" = "open website" := by decide
example : POC.preprocess_input "Send Mail!!" = "send email" := by decide
example : POC.pyReplace "email" "mail" "email" = "eemail" := by decide
example : POC.extract_dynamic_values "email john@x.com regarding the budget" "email_compose"
    = [("recipient_email", "john@x.com"), ("email_subject", "the budget")] := by decide
example : POC.extract_dynamic_values "search for python tutorials" "web_search"
    = [("search_query", "python tutorials")] := by decide
example : POC.extract_dynamic_values "search  " "web_search"
    = [("search_query", "")] := by decide
example : POC.extract_dynamic_values "foo.com visit httpx.com" "web_navigate"
    = [("target_url", "httpx.com")] := by decide
example : POC.extract_dynamic_values "go to github.com" "web_navigate"
    = [("target_url", "https://github.com")] := by decide
example : POC.extract_dynamic_values "навигация" "web_navigate" = [] := by decide
example : POC.extract_dynamic_values "hello there" "web_search"
    = [("search_query", "hello there")] := by decide
example : POC.extract_dynamic_values "email bob about lunch to discuss" "email_compose"
    = [("email_subject", "lunch")] := by decide
